import Mathlib

/-!
# Verification of the AWS Connect contact-flow Lambda (`lambda_function.py`)

Shallow embedding of `src/infrastructure/aws-connect-lambda/lambda_function.py`.

The incoming event is a nested mapping; we model each level as a structure of
optional fields (a missing key is `none`, mirroring Python's `dict.get`).
Python's `d.get(k, {})` (defaulting a missing sub-object to an empty mapping)
is modelled by `Option.getD` with an explicit `empty` value for each level.
Python's truthiness-based `a or b` on `None`/string values is modelled by
`pyOr` with `truthy` (the empty string and `None` are falsy).

The handler's one side effect (the outbound HTTP POST) is modelled by passing
a delivery oracle `send : HttpRequest → DeliveryOutcome`; the handler records
the request it would issue (at most one — the source performs a single
`urlopen`, no retry loop) and the log line produced by the outcome.  The four
`try/except` arms of the source only log (`deliveryLog`), so the oracle's
answer can influence the logs but nothing else.  Serialization of the JSON
bodies to byte strings is not modelled; the payload is kept as an association
list of keys to `Option String` (`none` serializes to JSON `null`).
-/

/-- `ContactData.Agent` sub-object: keys `ARN`, `Username`. -/
structure Agent where
  ARN : Option String
  Username : Option String
deriving DecidableEq, Repr

def Agent.empty : Agent := ⟨none, none⟩

/-- `ContactData.CustomerEndpoint` sub-object: key `Address`. -/
structure CustomerEndpoint where
  Address : Option String
deriving DecidableEq, Repr

def CustomerEndpoint.empty : CustomerEndpoint := ⟨none⟩

/-- `ContactData.Queue` sub-object: key `Name`. -/
structure Queue where
  Name : Option String
deriving DecidableEq, Repr

def Queue.empty : Queue := ⟨none⟩

/-- `ContactData.Attributes` sub-object: the two attribute keys the handler reads. -/
structure Attributes where
  agent_arn : Option String
  agent_username : Option String
deriving DecidableEq, Repr

def Attributes.empty : Attributes := ⟨none, none⟩

/-- `MediaStreams.Customer.Audio` sub-object: key `StreamARN`. -/
structure Audio where
  StreamARN : Option String
deriving DecidableEq, Repr

def Audio.empty : Audio := ⟨none⟩

/-- `MediaStreams.Customer` sub-object: key `Audio`. -/
structure Customer where
  Audio : Option Audio
deriving DecidableEq, Repr

def Customer.empty : Customer := ⟨none⟩

/-- `ContactData.MediaStreams` sub-object: key `Customer`. -/
structure MediaStreams where
  Customer : Option Customer
deriving DecidableEq, Repr

def MediaStreams.empty : MediaStreams := ⟨none⟩

/-- `Details.ContactData` sub-object with the keys the handler reads. -/
structure ContactData where
  ContactId : Option String
  InstanceARN : Option String
  CustomerEndpoint : Option CustomerEndpoint
  Agent : Option Agent
  Attributes : Option Attributes
  Name : Option String
  Queue : Option Queue
  InitiationMethod : Option String
  MediaStreams : Option MediaStreams
deriving DecidableEq, Repr

def ContactData.empty : ContactData :=
  ⟨none, none, none, none, none, none, none, none, none⟩

/-- `event.Details` sub-object: key `ContactData`. -/
structure Details where
  ContactData : Option ContactData
deriving DecidableEq, Repr

def Details.empty : Details := ⟨none⟩

/-- The incoming AWS Connect contact-flow event: key `Details`. -/
structure Event where
  Details : Option Details
deriving DecidableEq, Repr

/-- Python truthiness for a `None`-or-string value: `None` and `""` are falsy. -/
def truthy : Option String → Bool
  | none => false
  | some s => s ≠ ""

/-- Python `a or b` on `None`-or-string values. -/
def pyOr (a b : Option String) : Option String :=
  if truthy a then a else b

/-- The flat record of extracted fields (the handler's local variables after
the extraction block, lines 41-79 of the source).  String-typed fields use
`""` for a missing key (Python `get(k, "")`); the two agent fields use
`Option String` (Python's `... or None`). -/
structure Extracted where
  contact_id : String
  instance_arn : String
  customer_number : String
  agent_arn : Option String
  agent_username : Option String
  queue_name : String
  initiation_method : String
  stream_arn : String
deriving DecidableEq, Repr

/-- The extraction block of `lambda_handler` (source lines 41-79), translated
statement by statement. -/
def extract (event : Event) : Extracted :=
  let details := event.Details.getD Details.empty
  let contact_data := details.ContactData.getD ContactData.empty
  let contact_id := contact_data.ContactId.getD ""
  let instance_arn := contact_data.InstanceARN.getD ""
  let customer_endpoint := contact_data.CustomerEndpoint.getD CustomerEndpoint.empty
  let customer_number := customer_endpoint.Address.getD ""
  let agent_data := contact_data.Agent.getD Agent.empty
  let attributes := contact_data.Attributes.getD Attributes.empty
  let agent_arn := pyOr (pyOr agent_data.ARN attributes.agent_arn) none
  let agent_username :=
    pyOr (pyOr (pyOr agent_data.Username attributes.agent_username) contact_data.Name) none
  let queue_data := contact_data.Queue.getD Queue.empty
  let queue_name := queue_data.Name.getD ""
  let initiation_method := contact_data.InitiationMethod.getD ""
  let media_streams := contact_data.MediaStreams.getD MediaStreams.empty
  let customer_audio := (media_streams.Customer.getD Customer.empty).Audio.getD Audio.empty
  let stream_arn := customer_audio.StreamARN.getD ""
  { contact_id := contact_id
    instance_arn := instance_arn
    customer_number := customer_number
    agent_arn := agent_arn
    agent_username := agent_username
    queue_name := queue_name
    initiation_method := initiation_method
    stream_arn := stream_arn }

/-- Python `x or None` for a string `x` (used in the payload dict literal). -/
def strOrNone (s : String) : Option String :=
  if s = "" then none else some s

/-- The payload dict literal of the source (lines 96-105): an association
list; `none` stands for JSON `null`. -/
def buildPayload (f : Extracted) : List (String × Option String) :=
  [("contact_id", some f.contact_id),
   ("stream_arn", some f.stream_arn),
   ("customer_number", strOrNone f.customer_number),
   ("agent_arn", pyOr f.agent_arn none),
   ("agent_username", pyOr f.agent_username none),
   ("instance_arn", strOrNone f.instance_arn),
   ("queue_name", strOrNone f.queue_name),
   ("initiation_method", strOrNone f.initiation_method)]

/-- The process configuration (environment variables, source lines 22-23;
`os.environ.get(_, "")` makes a missing variable the empty string). -/
structure Config where
  WHISPA_API_URL : String
  WHISPA_API_KEY : String
deriving DecidableEq, Repr

/-- The outbound HTTP request the handler constructs (source lines 111-124).
`body` is the payload before JSON encoding; `timeout` is the `urlopen`
timeout argument. -/
structure HttpRequest where
  url : String
  method : String
  headers : List (String × String)
  body : List (String × Option String)
  timeout : Nat
deriving DecidableEq, Repr

/-- The possible outcomes of the single `urlopen` attempt, one constructor per
control path of the source's `try`/`except` arms (lines 124-139). -/
inductive DeliveryOutcome where
  | ok (status : Nat) (body : String)
  | httpError (code : Nat) (body : String)
  | urlError (reason : String)
  | exn (name msg : String)
deriving DecidableEq, Repr

/-- The log lines the handler prints, one constructor per `print` of the
source (payload content attached where the source interpolates it). -/
inductive LogLine where
  | eventReceived
  | errorNoStreamArn
  | errorNoContactId
  | payloadBuilt (payload : List (String × Option String))
  | whispaResponse (status : Nat) (body : String)
  | whispaHttpError (code : Nat) (body : String)
  | whispaConnectionError (reason : String)
  | whispaUnexpectedError (name msg : String)
  | warningNotConfigured
deriving DecidableEq, Repr

/-- Which log line each delivery outcome produces: the source's `with` block
logs the response, and each of the three `except` arms only logs
(lines 126-139); none of them alters the return value. -/
def deliveryLog : DeliveryOutcome → LogLine
  | .ok status body => .whispaResponse status body
  | .httpError code body => .whispaHttpError code body
  | .urlError reason => .whispaConnectionError reason
  | .exn name msg => .whispaUnexpectedError name msg

/-- The handler's returned dict: either the 400 shape `{statusCode, error}`
(lines 86-89 and 93) or the 200 shape `{statusCode, contactId, streamArn}`
(lines 145-149), with the status code recorded explicitly. -/
inductive HandlerResult where
  | failure (statusCode : Nat) (error : String)
  | success (statusCode : Nat) (contactId streamArn : String)
deriving DecidableEq, Repr

/-- Everything one invocation produces: the returned value, the outbound
request it attempted (`none` when no network call is made), and the log. -/
structure HandlerOutput where
  result : HandlerResult
  request : Option HttpRequest
  logs : List LogLine
deriving DecidableEq, Repr

/-- Python `str.rstrip` with `/`: drop every trailing slash. -/
def rstripSlash (s : String) : String :=
  ⟨(s.data.reverse.dropWhile (fun c => c = '/')).reverse⟩

/-- `lambda_handler` (source lines 26-149).  `send` is the delivery oracle
standing for the single `urlopen` call; `context` is the unused Lambda
context. -/
def lambda_handler (cfg : Config) (send : HttpRequest → DeliveryOutcome)
    (event : Event) (context : Unit) : HandlerOutput :=
  let f := extract event
  if f.stream_arn = "" then
    { result := .failure 400
        "Missing stream_arn - \x27Start media streaming\x27 block must run first"
      request := none
      logs := [.eventReceived, .errorNoStreamArn] }
  else if f.contact_id = "" then
    { result := .failure 400 "Missing contact_id in event"
      request := none
      logs := [.eventReceived, .errorNoContactId] }
  else
    let payload := buildPayload f
    if cfg.WHISPA_API_URL ≠ "" then
      let endpoint := rstripSlash cfg.WHISPA_API_URL ++ "/awsconnect/call-started"
      let headers :=
        ("Content-Type", "application/json") ::
          (if cfg.WHISPA_API_KEY ≠ "" then [("X-API-Key", cfg.WHISPA_API_KEY)] else [])
      let req : HttpRequest :=
        { url := endpoint, method := "POST", headers := headers
          body := payload, timeout := 10 }
      let outcome := send req
      { result := .success 200 f.contact_id f.stream_arn
        request := some req
        logs := [.eventReceived, .payloadBuilt payload, deliveryLog outcome] }
    else
      { result := .success 200 f.contact_id f.stream_arn
        request := none
        logs := [.eventReceived, .payloadBuilt payload, .warningNotConfigured] }

/-! ## Spec-side definitions (for refinement claims) -/

/-- Spec-side reading of the extraction rules: the "first non-absent of" a
list of candidate lookups, treating the empty string as absent. -/
def firstPresentNonEmpty : List (Option String) → Option String
  | [] => none
  | none :: rest => firstPresentNonEmpty rest
  | some s :: rest => if s = "" then firstPresentNonEmpty rest else some s

/-- Spec-side normalization: an absent field (empty string) serializes to
JSON `null`, a present field to its string value. -/
def absentToNull (s : String) : Option String :=
  if s = "" then none else some s

/-- Spec-side payload: same field set as the extracted record, absent fields
mapped to `null`, present fields to their extracted values. -/
def specPayload (f : Extracted) : List (String × Option String) :=
  [("contact_id", absentToNull f.contact_id),
   ("stream_arn", absentToNull f.stream_arn),
   ("customer_number", absentToNull f.customer_number),
   ("agent_arn", f.agent_arn),
   ("agent_username", f.agent_username),
   ("instance_arn", absentToNull f.instance_arn),
   ("queue_name", absentToNull f.queue_name),
   ("initiation_method", absentToNull f.initiation_method)]

/-! ## Raw path lookups (each missing level defaulted to an empty mapping,
exactly as the source's `get(key, {})` chains do) -/

/-- `event.Details.ContactData`, missing levels defaulted (source lines 41-42). -/
def Event.contact_data (e : Event) : ContactData :=
  (e.Details.getD Details.empty).ContactData.getD ContactData.empty

/-- Raw lookup of `ContactData.Agent.ARN`. -/
def Event.rawAgentARN (e : Event) : Option String :=
  ((Event.contact_data e).Agent.getD Agent.empty).ARN

/-- Raw lookup of `ContactData.Attributes.agent_arn`. -/
def Event.rawAttrAgentArn (e : Event) : Option String :=
  ((Event.contact_data e).Attributes.getD Attributes.empty).agent_arn

/-- Raw lookup of `ContactData.Agent.Username`. -/
def Event.rawAgentUsername (e : Event) : Option String :=
  ((Event.contact_data e).Agent.getD Agent.empty).Username

/-- Raw lookup of `ContactData.Attributes.agent_username`. -/
def Event.rawAttrAgentUsername (e : Event) : Option String :=
  ((Event.contact_data e).Attributes.getD Attributes.empty).agent_username

/-- Raw lookup of `ContactData.Name`. -/
def Event.rawName (e : Event) : Option String :=
  (Event.contact_data e).Name

/-! ## The event with every missing intermediate object replaced by an empty
mapping, the way the source's `get(key, {})` defaults treat it -/

def Customer.defaulted (c : Customer) : Customer :=
  ⟨some (c.Audio.getD Audio.empty)⟩

def MediaStreams.defaulted (ms : MediaStreams) : MediaStreams :=
  ⟨some (Customer.defaulted (ms.Customer.getD Customer.empty))⟩

def ContactData.defaulted (cd : ContactData) : ContactData :=
  { cd with
    CustomerEndpoint := some (cd.CustomerEndpoint.getD CustomerEndpoint.empty)
    Agent := some (cd.Agent.getD Agent.empty)
    Attributes := some (cd.Attributes.getD Attributes.empty)
    Queue := some (cd.Queue.getD Queue.empty)
    MediaStreams := some (MediaStreams.defaulted (cd.MediaStreams.getD MediaStreams.empty)) }

def Event.defaulted (e : Event) : Event :=
  ⟨some ⟨some (ContactData.defaulted (Event.contact_data e))⟩⟩

/-- The all-absent extracted record (every lookup missed). -/
def Extracted.absent : Extracted :=
  ⟨"", "", "", none, none, "", "", ""⟩

/-! ## Helper lemmas about Python `or` chains -/

theorem pyOr_none_eq_first (x : Option String) :
    pyOr x none = firstPresentNonEmpty [x] := by
  cases x with
  | none => rfl
  | some s => by_cases hs : s = "" <;> simp [pyOr, truthy, firstPresentNonEmpty, hs]

theorem firstPresent_cons (x : Option String) (l : List (Option String)) :
    firstPresentNonEmpty (x :: l) = pyOr x (firstPresentNonEmpty l) := by
  cases x with
  | none => rfl
  | some s => by_cases hs : s = "" <;> simp [pyOr, truthy, firstPresentNonEmpty, hs]

theorem pyOr_assoc (a b c : Option String) :
    pyOr (pyOr a b) c = pyOr a (pyOr b c) := by
  by_cases ha : truthy a = true <;> simp [pyOr, ha]

theorem pyOr₂_eq_first (a b : Option String) :
    pyOr (pyOr a b) none = firstPresentNonEmpty [a, b] := by
  rw [pyOr_assoc, firstPresent_cons, firstPresent_cons]
  rfl

theorem pyOr₃_eq_first (a b c : Option String) :
    pyOr (pyOr (pyOr a b) c) none = firstPresentNonEmpty [a, b, c] := by
  rw [pyOr_assoc, pyOr_assoc, firstPresent_cons, firstPresent_cons, firstPresent_cons]
  rfl

theorem pyOr_none_idem (x : Option String) :
    pyOr (pyOr x none) none = pyOr x none := by
  by_cases hx : truthy x = true <;> simp [pyOr, hx]

/-- The extracted `agent_arn` is already `or None`-normalized. -/
theorem extract_agent_arn_norm (e : Event) :
    pyOr (extract e).agent_arn none = (extract e).agent_arn :=
  pyOr_none_idem (pyOr (Event.rawAgentARN e) (Event.rawAttrAgentArn e))

/-- The extracted `agent_username` is already `or None`-normalized. -/
theorem extract_agent_username_norm (e : Event) :
    pyOr (extract e).agent_username none = (extract e).agent_username :=
  pyOr_none_idem
    (pyOr (pyOr (Event.rawAgentUsername e) (Event.rawAttrAgentUsername e)) (Event.rawName e))

theorem strOrNone_ok (s : String) :
    strOrNone s = none ∨ ∃ t, strOrNone s = some t ∧ t ≠ "" := by
  by_cases hs : s = ""
  · exact .inl (by simp [strOrNone, hs])
  · exact .inr ⟨s, by simp [strOrNone, hs], hs⟩

theorem pyOr_none_ok (x : Option String) :
    pyOr x none = none ∨ ∃ t, pyOr x none = some t ∧ t ≠ "" := by
  cases x with
  | none => exact .inl rfl
  | some s =>
    by_cases hs : s = ""
    · exact .inl (by simp [pyOr, truthy, hs])
    · exact .inr ⟨s, by simp [pyOr, truthy, hs], hs⟩

/-! ## Concrete sample inputs -/

def cfg₀ : Config := ⟨"", ""⟩

def cfg₁ : Config := ⟨"https://api.example.com/", "secret-key"⟩

def sendOk : HttpRequest → DeliveryOutcome := fun _ => .ok 200 "accepted"

def sendDown : HttpRequest → DeliveryOutcome := fun _ => .urlError "connection refused"

def evEmpty : Event := ⟨none⟩

def evNoCD : Event := ⟨some ⟨none⟩⟩

def evNoContact : Event :=
  ⟨some ⟨some { ContactData.empty with
      MediaStreams := some ⟨some ⟨some ⟨some "arn:stream-1"⟩⟩⟩ }⟩⟩

def evFull : Event :=
  ⟨some ⟨some
    { ContactId := some "c-1"
      InstanceARN := some "arn:instance"
      CustomerEndpoint := some ⟨some "+15550100"⟩
      Agent := some ⟨some "arn:agent-1", some "agent.user"⟩
      Attributes := some ⟨some "arn:agent-2", some "attr.user"⟩
      Name := some "flow-name"
      Queue := some ⟨some "Sales"⟩
      InitiationMethod := some "INBOUND"
      MediaStreams := some ⟨some ⟨some ⟨some "arn:stream-1"⟩⟩⟩ }⟩⟩

/-! ## Claims -/

/-- Claim C1: validation is short-circuit and ordered.  If the extracted
`stream_arn` is absent the handler returns the 400 missing-stream_arn result
and attempts no outbound call, whatever the other fields; otherwise, if the
extracted `contact_id` is absent it returns the 400 missing-contact_id result
and attempts no outbound call. -/
theorem C1_validation_order (cfg : Config) (send : HttpRequest → DeliveryOutcome)
    (e : Event) :
    ((extract e).stream_arn = "" →
      lambda_handler cfg send e () =
        { result := .failure 400
            "Missing stream_arn - \x27Start media streaming\x27 block must run first"
          request := none
          logs := [.eventReceived, .errorNoStreamArn] }) ∧
    ((extract e).stream_arn ≠ "" → (extract e).contact_id = "" →
      lambda_handler cfg send e () =
        { result := .failure 400 "Missing contact_id in event"
          request := none
          logs := [.eventReceived, .errorNoContactId] }) := by
  constructor
  · intro h
    simp [lambda_handler, h]
  · intro h1 h2
    simp [lambda_handler, h1, h2]

/-- Witness for C1 at two concrete events: one with no stream ARN anywhere,
one with a stream ARN but no contact id. -/
theorem C1_validation_order_witness :
    lambda_handler cfg₁ sendOk evEmpty () =
      { result := .failure 400
          "Missing stream_arn - \x27Start media streaming\x27 block must run first"
        request := none
        logs := [.eventReceived, .errorNoStreamArn] } ∧
    lambda_handler cfg₁ sendOk evNoContact () =
      { result := .failure 400 "Missing contact_id in event"
        request := none
        logs := [.eventReceived, .errorNoContactId] } :=
  ⟨(C1_validation_order cfg₁ sendOk evEmpty).1 rfl,
   (C1_validation_order cfg₁ sendOk evNoContact).2 (by decide) rfl⟩

/-- Claim C2: for every event passing validation the handler returns
`{statusCode:200, contactId, streamArn}` built from the extracted values; the
statement holds for every delivery oracle `send` (remote error, connection
failure, unexpected exception), and with no base URL configured no outbound
call is attempted at all. -/
theorem C2_success_stable (cfg : Config) (send : HttpRequest → DeliveryOutcome)
    (e : Event)
    (h1 : (extract e).stream_arn ≠ "") (h2 : (extract e).contact_id ≠ "") :
    (lambda_handler cfg send e ()).result =
      .success 200 (extract e).contact_id (extract e).stream_arn ∧
    (cfg.WHISPA_API_URL = "" → (lambda_handler cfg send e ()).request = none) := by
  constructor
  · by_cases hu : cfg.WHISPA_API_URL = "" <;> simp [lambda_handler, h1, h2, hu]
  · intro hu
    simp [lambda_handler, h1, h2, hu]

/-- Witness for C2: a fully valid event, no base URL configured. -/
theorem C2_success_stable_witness :
    (lambda_handler cfg₀ sendDown evFull ()).result = .success 200 "c-1" "arn:stream-1" ∧
    (lambda_handler cfg₀ sendDown evFull ()).request = none := by
  have h := C2_success_stable cfg₀ sendDown evFull (by decide) (by decide)
  exact ⟨h.1.trans (by decide), h.2 rfl⟩

/-- Claim C3: `agent_arn` extraction is the strict two-tier fallback
`ContactData.Agent.ARN` then `ContactData.Attributes.agent_arn`, treating the
empty string as absent, and is absent when both miss. -/
theorem C3_agent_arn_precedence (e : Event) :
    (extract e).agent_arn =
      firstPresentNonEmpty [Event.rawAgentARN e, Event.rawAttrAgentArn e] :=
  pyOr₂_eq_first (Event.rawAgentARN e) (Event.rawAttrAgentArn e)

/-- Claim C4: `agent_username` extraction is the strict three-tier fallback
`ContactData.Agent.Username`, then `ContactData.Attributes.agent_username`,
then `ContactData.Name`, treating the empty string as absent, and is absent
when all three miss. -/
theorem C4_agent_username_precedence (e : Event) :
    (extract e).agent_username =
      firstPresentNonEmpty
        [Event.rawAgentUsername e, Event.rawAttrAgentUsername e, Event.rawName e] :=
  pyOr₃_eq_first (Event.rawAgentUsername e) (Event.rawAttrAgentUsername e) (Event.rawName e)

/-- Claim C5: for every event passing validation the outbound payload has
exactly the eight keys, in the source's order, and equals the spec-side
payload in which every absent field (missing or empty string) is JSON `null`
and every present field its extracted value. -/
theorem C5_payload_exact (e : Event)
    (h1 : (extract e).stream_arn ≠ "") (h2 : (extract e).contact_id ≠ "") :
    buildPayload (extract e) = specPayload (extract e) ∧
    (buildPayload (extract e)).map Prod.fst =
      ["contact_id", "stream_arn", "customer_number", "agent_arn",
       "agent_username", "instance_arn", "queue_name", "initiation_method"] := by
  refine ⟨?_, rfl⟩
  simp only [buildPayload, specPayload, absentToNull, strOrNone,
    extract_agent_arn_norm, extract_agent_username_norm, if_neg h1, if_neg h2]

/-- Witness for C5 at a fully populated valid event. -/
theorem C5_payload_exact_witness :
    buildPayload (extract evFull) = specPayload (extract evFull) ∧
    (buildPayload (extract evFull)).map Prod.fst =
      ["contact_id", "stream_arn", "customer_number", "agent_arn",
       "agent_username", "instance_arn", "queue_name", "initiation_method"] :=
  C5_payload_exact evFull (by decide) (by decide)

/-- Claim C6: with a base URL configured and validation passed, the handler
issues exactly one POST to the base URL with trailing slashes stripped plus
`/awsconnect/call-started`, carrying the JSON payload, a
`Content-Type: application/json` header, a 10-unit timeout, and an
`X-API-Key` header exactly when an API key is configured.  (The model issues
at most one request — the source performs a single `urlopen` with no retry.) -/
theorem C6_single_post (cfg : Config) (send : HttpRequest → DeliveryOutcome)
    (e : Event)
    (h1 : (extract e).stream_arn ≠ "") (h2 : (extract e).contact_id ≠ "")
    (hu : cfg.WHISPA_API_URL ≠ "") :
    (lambda_handler cfg send e ()).request = some
      { url := rstripSlash cfg.WHISPA_API_URL ++ "/awsconnect/call-started"
        method := "POST"
        headers := ("Content-Type", "application/json") ::
          (if cfg.WHISPA_API_KEY ≠ "" then [("X-API-Key", cfg.WHISPA_API_KEY)] else [])
        body := buildPayload (extract e)
        timeout := 10 } ∧
    (∀ req, (lambda_handler cfg send e ()).request = some req →
      (("X-API-Key", cfg.WHISPA_API_KEY) ∈ req.headers ↔ cfg.WHISPA_API_KEY ≠ "")) := by
  have hreq : (lambda_handler cfg send e ()).request = some
      { url := rstripSlash cfg.WHISPA_API_URL ++ "/awsconnect/call-started"
        method := "POST"
        headers := ("Content-Type", "application/json") ::
          (if cfg.WHISPA_API_KEY ≠ "" then [("X-API-Key", cfg.WHISPA_API_KEY)] else [])
        body := buildPayload (extract e)
        timeout := 10 } := by
    simp [lambda_handler, h1, h2, hu]
  refine ⟨hreq, ?_⟩
  intro req hr
  rw [hreq, Option.some.injEq] at hr
  subst hr
  by_cases hk : cfg.WHISPA_API_KEY = "" <;> simp [hk]

/-- The request C6 pins down for the sample configuration and event. -/
def reqFull : HttpRequest :=
  { url := rstripSlash cfg₁.WHISPA_API_URL ++ "/awsconnect/call-started"
    method := "POST"
    headers := ("Content-Type", "application/json") ::
      (if cfg₁.WHISPA_API_KEY ≠ "" then [("X-API-Key", cfg₁.WHISPA_API_KEY)] else [])
    body := buildPayload (extract evFull)
    timeout := 10 }

/-- Witness for C6: configured base URL with a trailing slash and an API key,
fully populated valid event. -/
theorem C6_single_post_witness :
    (lambda_handler cfg₁ sendOk evFull ()).request = some reqFull ∧
    (("X-API-Key", cfg₁.WHISPA_API_KEY) ∈ reqFull.headers ↔ cfg₁.WHISPA_API_KEY ≠ "") := by
  have h := C6_single_post cfg₁ sendOk evFull (by decide) (by decide) (by decide)
  exact ⟨h.1, h.2 reqFull h.1⟩

/-- Claim C7: the handler is total and every result is one of the two fixed
shapes: `{statusCode:400, error}` or `{statusCode:200, contactId, streamArn}`;
no other status code or shape occurs, for any event, configuration or
delivery outcome. -/
theorem C7_two_result_shapes (cfg : Config) (send : HttpRequest → DeliveryOutcome)
    (e : Event) (ctx : Unit) :
    (∃ msg, (lambda_handler cfg send e ctx).result = .failure 400 msg) ∨
    (∃ c s, (lambda_handler cfg send e ctx).result = .success 200 c s) := by
  by_cases h1 : (extract e).stream_arn = ""
  · exact .inl ⟨"Missing stream_arn - \x27Start media streaming\x27 block must run first",
      by simp [lambda_handler, h1]⟩
  · by_cases h2 : (extract e).contact_id = ""
    · exact .inl ⟨"Missing contact_id in event", by simp [lambda_handler, h1, h2]⟩
    · refine .inr ⟨(extract e).contact_id, (extract e).stream_arn, ?_⟩
      by_cases hu : cfg.WHISPA_API_URL = "" <;> simp [lambda_handler, h1, h2, hu]

/-- Claim C8: normalization invariant — for every event passing validation,
every payload value is `null` or a non-empty string, never the empty
string. -/
theorem C8_no_empty_payload_field (e : Event)
    (h1 : (extract e).stream_arn ≠ "") (h2 : (extract e).contact_id ≠ "") :
    ∀ kv ∈ buildPayload (extract e),
      kv.2 = none ∨ ∃ s, kv.2 = some s ∧ s ≠ "" := by
  intro kv hkv
  simp only [buildPayload, List.mem_cons, List.not_mem_nil, or_false] at hkv
  rcases hkv with h | h | h | h | h | h | h | h <;> subst h
  · exact .inr ⟨(extract e).contact_id, rfl, h2⟩
  · exact .inr ⟨(extract e).stream_arn, rfl, h1⟩
  · exact strOrNone_ok ((extract e).customer_number)
  · exact pyOr_none_ok ((extract e).agent_arn)
  · exact pyOr_none_ok ((extract e).agent_username)
  · exact strOrNone_ok ((extract e).instance_arn)
  · exact strOrNone_ok ((extract e).queue_name)
  · exact strOrNone_ok ((extract e).initiation_method)

/-- Witness for C8: the `agent_arn` entry of the payload of a fully populated
valid event. -/
theorem C8_no_empty_payload_field_witness :
    (("agent_arn", pyOr (extract evFull).agent_arn none) : String × Option String).2 = none ∨
    ∃ s, (("agent_arn", pyOr (extract evFull).agent_arn none) : String × Option String).2 =
      some s ∧ s ≠ "" :=
  C8_no_empty_payload_field evFull (by decide) (by decide)
    ("agent_arn", pyOr (extract evFull).agent_arn none) (by decide)

/-- Claim C9: the returned result is deterministic — two invocations on the
identical event, under any configurations and any delivery oracles, return
identical results; the delivery side effect never influences the returned
value. -/
theorem C9_result_deterministic (cfg cfg₂ : Config)
    (send send₂ : HttpRequest → DeliveryOutcome) (e : Event) (ctx ctx₂ : Unit) :
    (lambda_handler cfg send e ctx).result = (lambda_handler cfg₂ send₂ e ctx₂).result := by
  by_cases h1 : (extract e).stream_arn = "" <;>
    by_cases h2 : (extract e).contact_id = "" <;>
    by_cases hu : cfg.WHISPA_API_URL = "" <;>
    by_cases hv : cfg₂.WHISPA_API_URL = "" <;>
    simp [lambda_handler, h1, h2, hu, hv]

/-- Claim C10: extraction is total over missing structure — every missing
intermediate object behaves exactly as an empty mapping (`Event.defaulted`
replaces each missing level by an empty one without changing the extraction),
every field whose only paths pass through missing objects comes out absent,
and the handler still returns one of the two fixed result shapes. -/
theorem C10_total_over_missing_structure (cfg : Config)
    (send : HttpRequest → DeliveryOutcome) (e : Event) :
    extract e = extract (Event.defaulted e) ∧
    (e.Details = none → extract e = Extracted.absent) ∧
    (∀ d, e.Details = some d → d.ContactData = none → extract e = Extracted.absent) ∧
    ((Event.contact_data e).CustomerEndpoint = none → (extract e).customer_number = "") ∧
    ((Event.contact_data e).Queue = none → (extract e).queue_name = "") ∧
    ((Event.contact_data e).MediaStreams = none → (extract e).stream_arn = "") ∧
    ((Event.contact_data e).Agent = none → (Event.contact_data e).Attributes = none →
      (Event.contact_data e).Name = none →
      (extract e).agent_arn = none ∧ (extract e).agent_username = none) ∧
    ((∃ msg, (lambda_handler cfg send e ()).result = .failure 400 msg) ∨
     (∃ c s, (lambda_handler cfg send e ()).result = .success 200 c s)) := by
  obtain ⟨d⟩ := e
  refine ⟨rfl, ?_, ?_, ?_, ?_, ?_, ?_, ?_⟩
  · intro h
    subst h
    rfl
  · intro d₂ h hcd
    subst h
    obtain ⟨c⟩ := d₂
    subst hcd
    rfl
  · intro hce
    show ((Event.contact_data ⟨d⟩).CustomerEndpoint.getD
      CustomerEndpoint.empty).Address.getD "" = ""
    rw [hce]
    rfl
  · intro hq
    show ((Event.contact_data ⟨d⟩).Queue.getD Queue.empty).Name.getD "" = ""
    rw [hq]
    rfl
  · intro hms
    show (((((Event.contact_data ⟨d⟩).MediaStreams.getD
      MediaStreams.empty).Customer.getD Customer.empty).Audio.getD
        Audio.empty).StreamARN.getD "") = ""
    rw [hms]
    rfl
  · intro hag hat hnm
    constructor
    · show pyOr (pyOr ((Event.contact_data ⟨d⟩).Agent.getD Agent.empty).ARN
        ((Event.contact_data ⟨d⟩).Attributes.getD Attributes.empty).agent_arn) none = none
      rw [hag, hat]
      rfl
    · show pyOr (pyOr (pyOr ((Event.contact_data ⟨d⟩).Agent.getD Agent.empty).Username
        ((Event.contact_data ⟨d⟩).Attributes.getD Attributes.empty).agent_username)
          (Event.contact_data ⟨d⟩).Name) none = none
      rw [hag, hat, hnm]
      rfl
  · by_cases h1 : (extract (⟨d⟩ : Event)).stream_arn = ""
    · exact .inl ⟨"Missing stream_arn - \x27Start media streaming\x27 block must run first",
        by simp [lambda_handler, h1]⟩
    · by_cases h2 : (extract (⟨d⟩ : Event)).contact_id = ""
      · exact .inl ⟨"Missing contact_id in event", by simp [lambda_handler, h1, h2]⟩
      · refine .inr ⟨(extract (⟨d⟩ : Event)).contact_id,
          (extract (⟨d⟩ : Event)).stream_arn, ?_⟩
        by_cases hu : cfg.WHISPA_API_URL = "" <;> simp [lambda_handler, h1, h2, hu]

/-- Witness for C10 at two concrete events: one with no `Details` at all, one
whose `Details` lacks `ContactData`. -/
theorem C10_total_over_missing_structure_witness :
    extract evEmpty = Extracted.absent ∧
    extract evNoCD = Extracted.absent ∧
    (extract evEmpty).customer_number = "" ∧
    (extract evEmpty).queue_name = "" ∧
    (extract evEmpty).stream_arn = "" ∧
    (extract evEmpty).agent_arn = none ∧
    (extract evEmpty).agent_username = none := by
  have h := C10_total_over_missing_structure cfg₁ sendOk evEmpty
  have h₂ := C10_total_over_missing_structure cfg₁ sendOk evNoCD
  have hag := h.2.2.2.2.2.2.1 rfl rfl rfl
  exact ⟨h.2.1 rfl, h₂.2.2.1 ⟨none⟩ rfl rfl, h.2.2.2.1 rfl, h.2.2.2.2.1 rfl,
    h.2.2.2.2.2.1 rfl, hag.1, hag.2⟩
